import Mathlib

/-!
Verification of the adaptive Bézier flattening algorithm (`src/lib.rs` of
`chengluyu/adaptive-bezier`).  The Rust code is shallowly embedded below.
The scalar type `f64` is abstracted as a `ScalarOps` structure carrying the
arithmetic, comparison and transcendental operations the algorithm uses;
the structural claims are proved for every instance (hence in particular
for IEEE double precision, instantiated as `floatOps`), and concrete
evaluations use the exact-rational instance `ratOps`.
-/

namespace AdaptiveBezier

/-- A 2D point or vector, mirroring `nalgebra::Vector2<f64>`. -/
structure Vec2 (α : Type) where
  x : α
  y : α
deriving DecidableEq

/-- The scalar operations and compiled-in constants of the source file.
The fields `add` … `atan2` model the `f64` operations used by the code;
`lt`, `le`, `gt`, `ge`, `ne` are the Bool-valued comparisons (as in IEEE
arithmetic, they are not assumed to form an order).  The upper-case fields
model the `const` items of `src/lib.rs` lines 5-13. -/
structure ScalarOps (α : Type) where
  add : α → α → α
  sub : α → α → α
  mul : α → α → α
  div : α → α → α
  abs : α → α
  powi2 : α → α
  atan2 : α → α → α
  lt : α → α → Bool
  le : α → α → Bool
  gt : α → α → Bool
  ge : α → α → Bool
  ne : α → α → Bool
  zero : α
  two : α
  PI : α
  TAU : α
  FLOAT_EPSILON : α
  PATH_DISTANCE_EPSILON : α
  CURVE_ANGLE_TOERANCE_EPSILON : α
  M_ANGLE_TOLERANCE : α
  M_CUSP_LIMIT : α

/-- `const RECUSION_LIMIT: u32 = 8;` (`src/lib.rs` line 7). -/
def RECUSION_LIMIT : Nat := 8

/-- Componentwise vector addition (`p1 + p2`). -/
def vadd {α : Type} (ops : ScalarOps α) (a b : Vec2 α) : Vec2 α :=
  ⟨ops.add a.x b.x, ops.add a.y b.y⟩

/-- Componentwise vector subtraction (`p4 - p1`). -/
def vsub {α : Type} (ops : ScalarOps α) (a b : Vec2 α) : Vec2 α :=
  ⟨ops.sub a.x b.x, ops.sub a.y b.y⟩

/-- Division of a vector by the scalar `2.0` (`v / 2.0`). -/
def vhalf {α : Type} (ops : ScalarOps α) (a : Vec2 α) : Vec2 α :=
  ⟨ops.div a.x ops.two, ops.div a.y ops.two⟩

/-- The midpoint `(a + b) / 2.0` used by the de Casteljau construction. -/
def mid2 {α : Type} (ops : ScalarOps α) (a b : Vec2 α) : Vec2 α :=
  vhalf ops (vadd ops a b)

/-- `nalgebra`'s perpendicular product `a.perp(&b) = a.x * b.y - a.y * b.x`. -/
def perp {α : Type} (ops : ScalarOps α) (a b : Vec2 α) : α :=
  ops.sub (ops.mul a.x b.y) (ops.mul a.y b.x)

/-- `nalgebra`'s `norm_squared`: `a.x * a.x + a.y * a.y`. -/
def norm_squared {α : Type} (ops : ScalarOps α) (a : Vec2 α) : α :=
  ops.add (ops.mul a.x a.x) (ops.mul a.y a.y)

/-- `clamp_angle` (`src/lib.rs` lines 15-22): fold an angle into `[0, π)`
range by reflecting values at or above `PI` to `TAU - x`. -/
def clamp_angle {α : Type} (ops : ScalarOps α) (x : α) : α :=
  if ops.ge x ops.PI then ops.sub ops.TAU x else x

/-- The early-return part of `adaptive_bezier_curve_impl` (`src/lib.rs`
lines 65-151): the flatness classification run when `level > 0`.  Returns
`some result` when the source would push points and `return`, and `none`
when control falls through to the recursive subdivision.  `p1234` is the
already-computed de Casteljau midpoint of the quad. -/
def try_stop {α : Type} (ops : ScalarOps α) (p1 p2 p3 p4 p1234 : Vec2 α)
    (points : List (Vec2 α)) (distance_tolerance : α) : Option (List (Vec2 α)) :=
  let d := vsub ops p4 p1
  let d2 := ops.abs (perp ops (vsub ops p2 p4) d)
  let d3 := ops.abs (perp ops (vsub ops p3 p4) d)
  if ops.gt d2 ops.FLOAT_EPSILON && ops.gt d3 ops.FLOAT_EPSILON then
    -- Regular care
    if ops.le (ops.powi2 (ops.add d2 d3)) (ops.mul distance_tolerance (norm_squared ops d)) then
      if ops.lt ops.M_ANGLE_TOLERANCE ops.CURVE_ANGLE_TOERANCE_EPSILON then
        some (points ++ [p1234])
      else
        -- Angle & cusp condition
        let a23 := ops.atan2 (ops.sub p3.y p2.y) (ops.sub p3.x p2.x)
        let da1 := clamp_angle ops
          (ops.abs (ops.sub a23 (ops.atan2 (ops.sub p2.y p1.y) (ops.sub p2.x p1.x))))
        let da2 := clamp_angle ops
          (ops.abs (ops.sub (ops.atan2 (ops.sub p4.y p3.y) (ops.sub p4.x p3.x)) a23))
        if ops.lt (ops.add da1 da2) ops.M_ANGLE_TOLERANCE then
          some (points ++ [p1234])
        else if ops.ne ops.M_CUSP_LIMIT ops.zero then
          if ops.gt da1 ops.M_CUSP_LIMIT then
            some (points ++ [p2])
          else if ops.gt da2 ops.M_CUSP_LIMIT then
            some (points ++ [p3])
          else none
        else none
    else none
  else if ops.gt d2 ops.FLOAT_EPSILON then
    -- P_1, P_3, P_4 are collinear, P_2 is considerable
    if ops.le (ops.mul d2 d2) (ops.mul distance_tolerance (norm_squared ops d)) then
      if ops.lt ops.M_ANGLE_TOLERANCE ops.CURVE_ANGLE_TOERANCE_EPSILON then
        some (points ++ [p1234])
      else
        -- Angle condition
        let da1 := clamp_angle ops
          (ops.abs (ops.sub (ops.atan2 (ops.sub p3.y p2.y) (ops.sub p3.x p2.x))
            (ops.atan2 (ops.sub p2.y p1.y) (ops.sub p2.x p1.x))))
        if ops.lt da1 ops.M_ANGLE_TOLERANCE then
          some (points ++ [p2, p3])
        else if ops.ne ops.M_CUSP_LIMIT ops.zero && ops.gt da1 ops.M_CUSP_LIMIT then
          some (points ++ [p2])
        else none
    else none
  else if ops.gt d3 ops.FLOAT_EPSILON then
    -- P_1, P_2, P_4 are collinear, P_3 is considerable
    if ops.le (ops.mul d3 d3) (ops.mul distance_tolerance (norm_squared ops d)) then
      if ops.lt ops.M_ANGLE_TOLERANCE ops.CURVE_ANGLE_TOERANCE_EPSILON then
        some (points ++ [p1234])
      else
        -- Angle condition
        let da1 := clamp_angle ops
          (ops.abs (ops.sub (ops.atan2 (ops.sub p4.y p3.y) (ops.sub p4.x p3.x))
            (ops.atan2 (ops.sub p3.y p2.y) (ops.sub p3.x p2.x))))
        if ops.lt da1 ops.M_ANGLE_TOLERANCE then
          some (points ++ [p2, p3])
        else if ops.ne ops.M_CUSP_LIMIT ops.zero && ops.gt da1 ops.M_CUSP_LIMIT then
          some (points ++ [p3])
        else none
    else none
  else
    -- Collinear case
    let d := vsub ops p1234 (mid2 ops p1 p4)
    if ops.lt (norm_squared ops d) distance_tolerance then
      some (points ++ [p1234])
    else none

/-- Recursion workhorse for `adaptive_bezier_curve_impl`.  The extra `fuel`
argument makes the recursion structural; `implAux_fuel_irrel` below proves
that any fuel of at least `RECUSION_LIMIT + 2 - level` gives the same
result, because the source's own guard `level > RECUSION_LIMIT` bounds the
recursion depth.  Apart from the fuel, the body is a direct translation of
`src/lib.rs` lines 47-155. -/
def implAux {α : Type} (ops : ScalarOps α) :
    Vec2 α → Vec2 α → Vec2 α → Vec2 α → List (Vec2 α) → α → Nat → Nat → List (Vec2 α)
  | _, _, _, _, points, _, _, 0 => points
  | p1, p2, p3, p4, points, distance_tolerance, level, fuel + 1 =>
    if RECUSION_LIMIT < level then
      points
    else
      let p12 := mid2 ops p1 p2
      let p23 := mid2 ops p2 p3
      let p34 := mid2 ops p3 p4
      let p123 := mid2 ops p12 p23
      let p234 := mid2 ops p23 p34
      let p1234 := mid2 ops p123 p234
      match (if 0 < level then try_stop ops p1 p2 p3 p4 p1234 points distance_tolerance
             else none) with
      | some result => result
      | none =>
        -- Continue subdivision
        implAux ops p1234 p234 p34 p4
          (implAux ops p1 p12 p123 p1234 points distance_tolerance (level + 1) fuel)
          distance_tolerance (level + 1) fuel

/-- `adaptive_bezier_curve_impl` (`src/lib.rs` lines 47-155), functionally:
takes the accumulated point list and returns it with the appended points. -/
def adaptive_bezier_curve_impl {α : Type} (ops : ScalarOps α)
    (p1 p2 p3 p4 : Vec2 α) (points : List (Vec2 α))
    (distance_tolerance : α) (level : Nat) : List (Vec2 α) :=
  implAux ops p1 p2 p3 p4 points distance_tolerance level (RECUSION_LIMIT + 2 - level)

/-- The distance tolerance computed at `src/lib.rs` line 31:
`(PATH_DISTANCE_EPSILON / scale).powi(2)`. -/
def distance_tolerance {α : Type} (ops : ScalarOps α) (scale : α) : α :=
  ops.powi2 (ops.div ops.PATH_DISTANCE_EPSILON scale)

/-- `adaptive_bezier_curve` (`src/lib.rs` lines 24-45): push `start`,
run the recursive subdivision at level 0, push `end`. -/
def adaptive_bezier_curve {α : Type} (ops : ScalarOps α)
    (start c1 c2 endp : Vec2 α) (scale : α) : List (Vec2 α) :=
  let dt := distance_tolerance ops scale
  let sample_points : List (Vec2 α) := [start]
  let sample_points := adaptive_bezier_curve_impl ops start c1 c2 endp sample_points dt 0
  sample_points ++ [endp]

/-- Exact-rational model of the `f64` scalar semantics.  All compiled-in
constants of `src/lib.rs` are given their exact decimal values.  `PI` is
the exact value of the `f64` constant `std::f64::consts::PI`
(`884279719003555 / 2^48`); `atan2` is a placeholder, legitimate because
the only code paths using `atan2`, `PI` and `TAU` are unreachable under
the compiled-in constants (theorem `distance_test_decides_termination`
holds for every `atan2` and the branch analysis never consults it). -/
def ratOps : ScalarOps ℚ where
  add := fun a b => a + b
  sub := fun a b => a - b
  mul := fun a b => a * b
  div := fun a b => a / b
  abs := fun a => |a|
  powi2 := fun a => a * a
  atan2 := fun _ _ => 0
  lt := fun a b => decide (a < b)
  le := fun a b => decide (a ≤ b)
  gt := fun a b => decide (b < a)
  ge := fun a b => decide (b ≤ a)
  ne := fun a b => decide (a ≠ b)
  zero := 0
  two := 2
  PI := 884279719003555 / 2 ^ 48
  TAU := 2 * (884279719003555 / 2 ^ 48)
  FLOAT_EPSILON := 119209290 / 10 ^ 15
  PATH_DISTANCE_EPSILON := 1
  CURVE_ANGLE_TOERANCE_EPSILON := 1 / 100
  M_ANGLE_TOLERANCE := 0
  M_CUSP_LIMIT := 0

/-- IEEE double-precision instance: the scalar operations are Lean's
built-in `Float` (binary64) operations, so `Float` values include `NaN`
and the infinities and the comparisons have their IEEE semantics. -/
def floatOps : ScalarOps Float where
  add := fun a b => a + b
  sub := fun a b => a - b
  mul := fun a b => a * b
  div := fun a b => a / b
  abs := Float.abs
  powi2 := fun a => a * a
  atan2 := Float.atan2
  lt := fun a b => decide (a < b)
  le := fun a b => decide (a ≤ b)
  gt := fun a b => decide (b < a)
  ge := fun a b => decide (b ≤ a)
  ne := fun a b => !(a == b)
  zero := 0.0
  two := 2.0
  PI := 3.141592653589793
  TAU := 2.0 * 3.141592653589793
  FLOAT_EPSILON := 1.19209290e-7
  PATH_DISTANCE_EPSILON := 1.0
  CURVE_ANGLE_TOERANCE_EPSILON := 0.01
  M_ANGLE_TOLERANCE := 0.0
  M_CUSP_LIMIT := 0.0

/-- Whatever `try_stop` decides, on success it only appends at most two
points at the end of the accumulated list. -/
theorem try_stop_some_shape {α : Type} (ops : ScalarOps α)
    (p1 p2 p3 p4 p1234 : Vec2 α) (points : List (Vec2 α)) (dt : α)
    (r : List (Vec2 α))
    (h : try_stop ops p1 p2 p3 p4 p1234 points dt = some r) :
    ∃ l, r = points ++ l ∧ l.length ≤ 2 := by
  simp only [try_stop] at h
  repeat' split at h
  any_goals exact Option.noConfusion h
  all_goals exact ⟨_, (Option.some.inj h).symm, by simp⟩

/-- The recursion only ever appends to the accumulated list. -/
theorem implAux_append {α : Type} (ops : ScalarOps α) (fuel : Nat) :
    ∀ p1 p2 p3 p4 points dt level,
      ∃ l, implAux ops p1 p2 p3 p4 points dt level fuel = points ++ l := by
  induction fuel with
  | zero =>
    intro p1 p2 p3 p4 points dt level
    exact ⟨[], by simp [implAux]⟩
  | succ f ih =>
    intro p1 p2 p3 p4 points dt level
    simp only [implAux]
    split
    · exact ⟨[], by simp⟩
    · split
      · next r hr =>
        split at hr
        · exact try_stop_some_shape ops _ _ _ _ _ _ _ _ hr |>.imp
            fun l hl => hl.1
        · exact Option.noConfusion hr
      · obtain ⟨l1, h1⟩ := ih p1 _ _ _ points dt (level + 1)
        rw [h1]
        obtain ⟨l2, h2⟩ := ih _ _ _ p4 (points ++ l1) dt (level + 1)
        rw [h2]
        exact ⟨l1 ++ l2, by rw [List.append_assoc]⟩

/-- Length bound for the recursion: a call at `level` appends at most
`2 ^ (RECUSION_LIMIT + 1 - level)` points. -/
theorem implAux_length {α : Type} (ops : ScalarOps α) (fuel : Nat) :
    ∀ p1 p2 p3 p4 points dt level,
      (implAux ops p1 p2 p3 p4 points dt level fuel).length ≤
        points.length + 2 ^ (RECUSION_LIMIT + 1 - level) := by
  induction fuel with
  | zero =>
    intro p1 p2 p3 p4 points dt level
    simp [implAux]
  | succ f ih =>
    intro p1 p2 p3 p4 points dt level
    simp only [implAux]
    split
    · exact Nat.le_add_right _ _
    · next hlev =>
      have hlev8 : level ≤ RECUSION_LIMIT := Nat.not_lt.mp hlev
      have hexp : RECUSION_LIMIT + 1 - level = (RECUSION_LIMIT + 1 - (level + 1)) + 1 := by
        unfold RECUSION_LIMIT at hlev8 ⊢
        omega
      split
      · next r hr =>
        split at hr
        · obtain ⟨l, hl, hlen⟩ := try_stop_some_shape ops _ _ _ _ _ _ _ _ hr
          have h2 : 2 ≤ 2 ^ (RECUSION_LIMIT + 1 - level) := by
            rw [hexp, pow_succ]
            have := Nat.one_le_two_pow (n := RECUSION_LIMIT + 1 - (level + 1))
            omega
          rw [hl]
          simp only [List.length_append]
          omega
        · exact Option.noConfusion hr
      · set p12 := mid2 ops p1 p2 with hp12
        set p23 := mid2 ops p2 p3 with hp23
        set p34 := mid2 ops p3 p4 with hp34
        set p123 := mid2 ops p12 p23 with hp123
        set p234 := mid2 ops p23 p34 with hp234
        set p1234 := mid2 ops p123 p234 with hp1234
        have hA := ih p1 p12 p123 p1234 points dt (level + 1)
        have hB := ih p1234 p234 p34 p4
          (implAux ops p1 p12 p123 p1234 points dt (level + 1) f) dt (level + 1)
        rw [hexp, pow_succ]
        omega

/-- Fuel irrelevance: once the fuel covers the remaining recursion depth
allowed by the source's `level > RECUSION_LIMIT` guard, its exact value
does not matter.  This is the formal statement that the recursion depth
is bounded by the guard itself. -/
theorem implAux_fuel_irrel {α : Type} (ops : ScalarOps α) :
    ∀ f g p1 p2 p3 p4 points dt level,
      RECUSION_LIMIT + 2 - level ≤ f → RECUSION_LIMIT + 2 - level ≤ g →
      implAux ops p1 p2 p3 p4 points dt level f =
        implAux ops p1 p2 p3 p4 points dt level g := by
  intro f
  induction f with
  | zero =>
    intro g p1 p2 p3 p4 points dt level hf hg
    have hlev : RECUSION_LIMIT < level := by omega
    cases g with
    | zero => rfl
    | succ g => simp [implAux, if_pos hlev]
  | succ f ih =>
    intro g p1 p2 p3 p4 points dt level hf hg
    cases g with
    | zero =>
      have hlev : RECUSION_LIMIT < level := by omega
      simp [implAux, if_pos hlev]
    | succ g =>
      by_cases hlev : RECUSION_LIMIT < level
      · simp [implAux, if_pos hlev]
      · have hrest : RECUSION_LIMIT + 2 - (level + 1) ≤ f := by omega
        have hrest2 : RECUSION_LIMIT + 2 - (level + 1) ≤ g := by omega
        simp only [implAux, if_neg hlev]
        cases hstop : (if 0 < level then
            try_stop ops p1 p2 p3 p4
              (mid2 ops (mid2 ops (mid2 ops p1 p2) (mid2 ops p2 p3))
                (mid2 ops (mid2 ops p2 p3) (mid2 ops p3 p4))) points dt
          else none) with
        | some r => simp [hstop]
        | none =>
          simp only [hstop]
          rw [ih g p1 _ _ _ points dt (level + 1) hrest hrest2]
          rw [ih g _ _ _ p4 _ dt (level + 1) hrest hrest2]

/-- A call at a level beyond the recursion limit returns the accumulated
list unchanged. -/
theorem impl_level_gt {α : Type} (ops : ScalarOps α)
    (p1 p2 p3 p4 : Vec2 α) (points : List (Vec2 α)) (dt : α) (level : Nat)
    (h : RECUSION_LIMIT < level) :
    adaptive_bezier_curve_impl ops p1 p2 p3 p4 points dt level = points := by
  unfold adaptive_bezier_curve_impl
  cases hfuel : RECUSION_LIMIT + 2 - level with
  | zero => simp [implAux]
  | succ n => simp [implAux, if_pos h]

/-- When `0 < level ≤ RECUSION_LIMIT` and the flatness classification
decides to stop, the subdivision step returns exactly its decision. -/
theorem impl_of_try_stop {α : Type} (ops : ScalarOps α)
    (p1 p2 p3 p4 : Vec2 α) (points : List (Vec2 α)) (dt : α) (level : Nat)
    (r : List (Vec2 α)) (h0 : 0 < level) (h8 : level ≤ RECUSION_LIMIT)
    (h : try_stop ops p1 p2 p3 p4
        (mid2 ops (mid2 ops (mid2 ops p1 p2) (mid2 ops p2 p3))
          (mid2 ops (mid2 ops p2 p3) (mid2 ops p3 p4))) points dt = some r) :
    adaptive_bezier_curve_impl ops p1 p2 p3 p4 points dt level = r := by
  unfold adaptive_bezier_curve_impl
  obtain ⟨f, hf⟩ : ∃ f, RECUSION_LIMIT + 2 - level = f + 1 :=
    ⟨RECUSION_LIMIT + 1 - level, by unfold RECUSION_LIMIT at h8 ⊢; omega⟩
  rw [hf]
  simp only [implAux, if_neg (Nat.not_lt.mpr h8), if_pos h0, h]

/-- The top-level output always has the shape `start :: (interior ++ [endp])`. -/
theorem adaptive_output_shape {α : Type} (ops : ScalarOps α)
    (start c1 c2 endp : Vec2 α) (scale : α) :
    ∃ l, adaptive_bezier_curve ops start c1 c2 endp scale = start :: (l ++ [endp]) := by
  obtain ⟨l, hl⟩ := implAux_append ops (RECUSION_LIMIT + 2 - 0) start c1 c2 endp
    [start] (distance_tolerance ops scale) 0
  refine ⟨l, ?_⟩
  simp only [adaptive_bezier_curve, adaptive_bezier_curve_impl]
  rw [hl]
  simp

/-- In the general branch (both deviations significant), a passing
distance test under the dormant angle configuration stops with `p1234`. -/
theorem try_stop_general_flat {α : Type} (ops : ScalarOps α)
    (p1 p2 p3 p4 p1234 : Vec2 α) (points : List (Vec2 α)) (dt : α)
    (d : Vec2 α) (d2 d3 : α)
    (hd : d = vsub ops p4 p1)
    (h2 : d2 = ops.abs (perp ops (vsub ops p2 p4) d))
    (h3 : d3 = ops.abs (perp ops (vsub ops p3 p4) d))
    (hcfg : ops.lt ops.M_ANGLE_TOLERANCE ops.CURVE_ANGLE_TOERANCE_EPSILON = true)
    (hb2 : ops.gt d2 ops.FLOAT_EPSILON = true)
    (hb3 : ops.gt d3 ops.FLOAT_EPSILON = true)
    (htest : ops.le (ops.powi2 (ops.add d2 d3)) (ops.mul dt (norm_squared ops d)) = true) :
    try_stop ops p1 p2 p3 p4 p1234 points dt = some (points ++ [p1234]) := by
  subst hd h2 h3
  simp only [try_stop]
  simp [hb2, hb3, htest, hcfg]

/-- In the branch where only `p2` is significant, a passing distance test
under the dormant angle configuration stops with `p1234`. -/
theorem try_stop_d2_flat {α : Type} (ops : ScalarOps α)
    (p1 p2 p3 p4 p1234 : Vec2 α) (points : List (Vec2 α)) (dt : α)
    (d : Vec2 α) (d2 d3 : α)
    (hd : d = vsub ops p4 p1)
    (h2 : d2 = ops.abs (perp ops (vsub ops p2 p4) d))
    (h3 : d3 = ops.abs (perp ops (vsub ops p3 p4) d))
    (hcfg : ops.lt ops.M_ANGLE_TOLERANCE ops.CURVE_ANGLE_TOERANCE_EPSILON = true)
    (hb2 : ops.gt d2 ops.FLOAT_EPSILON = true)
    (hb3 : ops.gt d3 ops.FLOAT_EPSILON = false)
    (htest : ops.le (ops.mul d2 d2) (ops.mul dt (norm_squared ops d)) = true) :
    try_stop ops p1 p2 p3 p4 p1234 points dt = some (points ++ [p1234]) := by
  subst hd h2 h3
  simp only [try_stop]
  simp [hb2, hb3, htest, hcfg]

/-- In the branch where only `p3` is significant, a passing distance test
under the dormant angle configuration stops with `p1234`. -/
theorem try_stop_d3_flat {α : Type} (ops : ScalarOps α)
    (p1 p2 p3 p4 p1234 : Vec2 α) (points : List (Vec2 α)) (dt : α)
    (d : Vec2 α) (d2 d3 : α)
    (hd : d = vsub ops p4 p1)
    (h2 : d2 = ops.abs (perp ops (vsub ops p2 p4) d))
    (h3 : d3 = ops.abs (perp ops (vsub ops p3 p4) d))
    (hcfg : ops.lt ops.M_ANGLE_TOLERANCE ops.CURVE_ANGLE_TOERANCE_EPSILON = true)
    (hb2 : ops.gt d2 ops.FLOAT_EPSILON = false)
    (hb3 : ops.gt d3 ops.FLOAT_EPSILON = true)
    (htest : ops.le (ops.mul d3 d3) (ops.mul dt (norm_squared ops d)) = true) :
    try_stop ops p1 p2 p3 p4 p1234 points dt = some (points ++ [p1234]) := by
  subst hd h2 h3
  simp only [try_stop]
  simp [hb2, hb3, htest, hcfg]

/-- In the fully collinear branch, a passing midpoint-deviation test stops
with `p1234`. -/
theorem try_stop_collinear_flat {α : Type} (ops : ScalarOps α)
    (p1 p2 p3 p4 p1234 : Vec2 α) (points : List (Vec2 α)) (dt : α)
    (d : Vec2 α) (d2 d3 : α)
    (hd : d = vsub ops p4 p1)
    (h2 : d2 = ops.abs (perp ops (vsub ops p2 p4) d))
    (h3 : d3 = ops.abs (perp ops (vsub ops p3 p4) d))
    (hb2 : ops.gt d2 ops.FLOAT_EPSILON = false)
    (hb3 : ops.gt d3 ops.FLOAT_EPSILON = false)
    (htest : ops.lt (norm_squared ops (vsub ops p1234 (mid2 ops p1 p4))) dt = true) :
    try_stop ops p1 p2 p3 p4 p1234 points dt = some (points ++ [p1234]) := by
  subst hd h2 h3
  simp only [try_stop]
  simp [hb2, hb3, htest]

/-- The output of the flattener is non-empty, starts with the input start
point and ends with the input end point, for every scalar semantics. -/
theorem adaptive_output_endpoint_facts {α : Type} (ops : ScalarOps α)
    (start c1 c2 endp : Vec2 α) (scale : α) :
    2 ≤ (adaptive_bezier_curve ops start c1 c2 endp scale).length ∧
    (adaptive_bezier_curve ops start c1 c2 endp scale).head? = some start ∧
    (adaptive_bezier_curve ops start c1 c2 endp scale).getLast? = some endp ∧
    adaptive_bezier_curve ops start c1 c2 endp scale ≠ [] := by
  obtain ⟨l, hl⟩ := adaptive_output_shape ops start c1 c2 endp scale
  rw [hl]
  refine ⟨by simp, by simp, ?_, by simp⟩
  rw [← List.cons_append]
  exact List.getLast?_concat _

/-- C1: for every four input control points and every positive scale, the
sequence returned by `adaptive_bezier_curve` is non-empty, its first
element is exactly the input start point and its last element is exactly
the input end point, both appended verbatim, regardless of what the
recursive step appends in between. -/
theorem adaptive_bezier_curve_endpoint_exact
    (start c1 c2 endp : Vec2 ℚ) (scale : ℚ) (hs : 0 < scale) :
    adaptive_bezier_curve ratOps start c1 c2 endp scale ≠ [] ∧
    (adaptive_bezier_curve ratOps start c1 c2 endp scale).head? = some start ∧
    (adaptive_bezier_curve ratOps start c1 c2 endp scale).getLast? = some endp := by
  obtain ⟨_, h1, h2, h3⟩ := adaptive_output_endpoint_facts ratOps start c1 c2 endp scale
  exact ⟨h3, h1, h2⟩

/-- Witness for C1 at a concrete input. -/
theorem adaptive_bezier_curve_endpoint_exact_witness :
    (0:ℚ) < 2 ∧
    (adaptive_bezier_curve ratOps ⟨20,20⟩ ⟨100,159⟩ ⟨50,200⟩ ⟨200,20⟩ 2 ≠ [] ∧
    (adaptive_bezier_curve ratOps ⟨20,20⟩ ⟨100,159⟩ ⟨50,200⟩ ⟨200,20⟩ 2).head? = some ⟨20,20⟩ ∧
    (adaptive_bezier_curve ratOps ⟨20,20⟩ ⟨100,159⟩ ⟨50,200⟩ ⟨200,20⟩ 2).getLast? = some ⟨200,20⟩) :=
  ⟨by decide,
   adaptive_bezier_curve_endpoint_exact ⟨20,20⟩ ⟨100,159⟩ ⟨50,200⟩ ⟨200,20⟩ 2 (by decide)⟩

/-- C4: any call of the subdivision step at a level greater than the
recursion limit 8 returns immediately without appending any point, and
every chain of recursive calls from the top-level invocation (level 0)
has depth at most 9 levels including the root: the result is already
independent of any recursion-depth budget of at least
`RECUSION_LIMIT + 2`, so the function is total. -/
theorem recursion_limit_halts {α : Type} (ops : ScalarOps α)
    (p1 p2 p3 p4 : Vec2 α) (points : List (Vec2 α)) (dt : α) :
    (∀ level, RECUSION_LIMIT < level →
      adaptive_bezier_curve_impl ops p1 p2 p3 p4 points dt level = points) ∧
    (∀ fuel, RECUSION_LIMIT + 2 ≤ fuel →
      implAux ops p1 p2 p3 p4 points dt 0 fuel =
        adaptive_bezier_curve_impl ops p1 p2 p3 p4 points dt 0) :=
  ⟨fun level h => impl_level_gt ops p1 p2 p3 p4 points dt level h,
   fun fuel h => implAux_fuel_irrel ops fuel (RECUSION_LIMIT + 2 - 0) p1 p2 p3 p4
      points dt 0 (by omega) (by omega)⟩

/-- Witness for C4 at a concrete input and level 9. -/
theorem recursion_limit_halts_witness :
    RECUSION_LIMIT < 9 ∧
    adaptive_bezier_curve_impl ratOps ⟨0,0⟩ ⟨1,1⟩ ⟨2,1⟩ ⟨3,0⟩ [⟨5,5⟩] 1 9 = [⟨5,5⟩] :=
  ⟨by decide,
   (recursion_limit_halts ratOps ⟨0,0⟩ ⟨1,1⟩ ⟨2,1⟩ ⟨3,0⟩ [⟨5,5⟩] 1).1 9 (by decide)⟩

/-- C5: for every four input control points and every positive scale, the
length of the sequence returned by `adaptive_bezier_curve` is at most
`2 + 2 ^ (RECUSION_LIMIT + 1) = 514`. -/
theorem output_length_le_514 (start c1 c2 endp : Vec2 ℚ) (scale : ℚ) (hs : 0 < scale) :
    (adaptive_bezier_curve ratOps start c1 c2 endp scale).length ≤
      2 + 2 ^ (RECUSION_LIMIT + 1) := by
  have h := implAux_length ratOps (RECUSION_LIMIT + 2 - 0) start c1 c2 endp [start]
    (distance_tolerance ratOps scale) 0
  simp only [adaptive_bezier_curve, adaptive_bezier_curve_impl]
  rw [List.length_append]
  simp only [Nat.sub_zero] at h ⊢
  simp only [List.length_cons, List.length_nil] at h ⊢
  omega

/-- Witness for C5 at a concrete input. -/
theorem output_length_le_514_witness :
    (0:ℚ) < 2 ∧
    (adaptive_bezier_curve ratOps ⟨20,20⟩ ⟨100,159⟩ ⟨50,200⟩ ⟨200,20⟩ 2).length ≤
      2 + 2 ^ (RECUSION_LIMIT + 1) :=
  ⟨by decide, output_length_le_514 ⟨20,20⟩ ⟨100,159⟩ ⟨50,200⟩ ⟨200,20⟩ 2 (by decide)⟩

/-- C7: on the first call of the subdivision step (level 0), the flatness
classification is skipped unconditionally and the step always performs
the recursive split into the two child quads `(p1, p12, p123, p1234)` and
`(p1234, p234, p34, p4)` at level 1, so at least one subdivision occurs
for every input curve. -/
theorem level_zero_always_subdivides {α : Type} (ops : ScalarOps α)
    (p1 p2 p3 p4 : Vec2 α) (points : List (Vec2 α)) (dt : α) :
    adaptive_bezier_curve_impl ops p1 p2 p3 p4 points dt 0 =
      adaptive_bezier_curve_impl ops
        (mid2 ops (mid2 ops (mid2 ops p1 p2) (mid2 ops p2 p3))
          (mid2 ops (mid2 ops p2 p3) (mid2 ops p3 p4)))
        (mid2 ops (mid2 ops p2 p3) (mid2 ops p3 p4))
        (mid2 ops p3 p4) p4
        (adaptive_bezier_curve_impl ops p1 (mid2 ops p1 p2)
          (mid2 ops (mid2 ops p1 p2) (mid2 ops p2 p3))
          (mid2 ops (mid2 ops (mid2 ops p1 p2) (mid2 ops p2 p3))
            (mid2 ops (mid2 ops p2 p3) (mid2 ops p3 p4)))
          points dt 1)
        dt 1 := rfl

/-- C8: when all four control points coincide and the scale is positive,
`adaptive_bezier_curve` terminates with a sequence of at least two
elements whose first and last entries are the common point. -/
theorem degenerate_all_points_equal (p : Vec2 ℚ) (scale : ℚ) (hs : 0 < scale) :
    2 ≤ (adaptive_bezier_curve ratOps p p p p scale).length ∧
    (adaptive_bezier_curve ratOps p p p p scale).head? = some p ∧
    (adaptive_bezier_curve ratOps p p p p scale).getLast? = some p := by
  obtain ⟨h0, h1, h2, _⟩ := adaptive_output_endpoint_facts ratOps p p p p scale
  exact ⟨h0, h1, h2⟩

/-- Witness for C8 at a concrete coincident input. -/
theorem degenerate_all_points_equal_witness :
    (0:ℚ) < 1 ∧
    (2 ≤ (adaptive_bezier_curve ratOps ⟨5,7⟩ ⟨5,7⟩ ⟨5,7⟩ ⟨5,7⟩ 1).length ∧
    (adaptive_bezier_curve ratOps ⟨5,7⟩ ⟨5,7⟩ ⟨5,7⟩ ⟨5,7⟩ 1).head? = some ⟨5,7⟩ ∧
    (adaptive_bezier_curve ratOps ⟨5,7⟩ ⟨5,7⟩ ⟨5,7⟩ ⟨5,7⟩ 1).getLast? = some ⟨5,7⟩) :=
  ⟨by decide, degenerate_all_points_equal ⟨5,7⟩ 1 (by decide)⟩

/-- C10: for every IEEE double-precision inputs whatsoever — including
NaN or infinite coordinates and zero or negative scale —
`adaptive_bezier_curve` (here instantiated at Lean's built-in binary64
`Float` type) terminates and returns a sequence of length at least 2
whose first element is the start point and whose last element is the end
point. -/
theorem float_total_endpoints (start c1 c2 endp : Vec2 Float) (scale : Float) :
    2 ≤ (adaptive_bezier_curve floatOps start c1 c2 endp scale).length ∧
    (adaptive_bezier_curve floatOps start c1 c2 endp scale).head? = some start ∧
    (adaptive_bezier_curve floatOps start c1 c2 endp scale).getLast? = some endp := by
  obtain ⟨h0, h1, h2, _⟩ := adaptive_output_endpoint_facts floatOps start c1 c2 endp scale
  exact ⟨h0, h1, h2⟩

/-- C2 (counterexample): at level 1 with only `p2` significant and the
distance test passing, the step appends the curve midpoint `p1234`, not
`p2`.  Here `p1 = (0,0)`, `p2 = (1, 1/1000)`, `p3 = (2,0)`, `p4 = (3,0)`
(so `d2 = 3/1000` is above the noise floor, `d3 = 0` is not, and
`d2^2 ≤ 1 * 9` holds), and the single appended point is
`p1234 = (3/2, 3/8000) ≠ p2`. -/
theorem d2_branch_appends_midpoint_not_p2 :
    adaptive_bezier_curve_impl ratOps ⟨0,0⟩ ⟨1,1/1000⟩ ⟨2,0⟩ ⟨3,0⟩ [] 1 1 =
      [⟨3/2, 3/8000⟩] ∧
    (⟨3/2, 3/8000⟩ : Vec2 ℚ) ≠ ⟨1, 1/1000⟩ := by
  constructor
  · decide!
  · decide!

/-- C2 (amended): in the subdivision step at `0 < level ≤ RECUSION_LIMIT`,
when only `p2` is significant (`d2` above the noise floor, `d3` at or
below it) and the flatness test `d2^2 ≤ distance_tolerance * |p4-p1|^2`
passes, the step appends the single point `p1234` (the de Casteljau
midpoint of the segment) to the output and stops without recursing
further — under the compiled-in constants the source's `p2` push on this
path is dead code. -/
theorem d2_branch_flat_appends_p1234
    (p1 p2 p3 p4 : Vec2 ℚ) (points : List (Vec2 ℚ)) (dt : ℚ) (level : Nat)
    (d : Vec2 ℚ) (d2 d3 : ℚ) (p1234 : Vec2 ℚ)
    (h0 : 0 < level) (h8 : level ≤ RECUSION_LIMIT)
    (hd : d = vsub ratOps p4 p1)
    (h2 : d2 = ratOps.abs (perp ratOps (vsub ratOps p2 p4) d))
    (h3 : d3 = ratOps.abs (perp ratOps (vsub ratOps p3 p4) d))
    (hp : p1234 = mid2 ratOps (mid2 ratOps (mid2 ratOps p1 p2) (mid2 ratOps p2 p3))
      (mid2 ratOps (mid2 ratOps p2 p3) (mid2 ratOps p3 p4)))
    (hb2 : ratOps.gt d2 ratOps.FLOAT_EPSILON = true)
    (hb3 : ratOps.gt d3 ratOps.FLOAT_EPSILON = false)
    (htest : ratOps.le (ratOps.mul d2 d2)
      (ratOps.mul dt (norm_squared ratOps d)) = true) :
    adaptive_bezier_curve_impl ratOps p1 p2 p3 p4 points dt level =
      points ++ [p1234] := by
  subst hp
  exact impl_of_try_stop ratOps p1 p2 p3 p4 points dt level _ h0 h8
    (try_stop_d2_flat ratOps p1 p2 p3 p4 _ points dt d d2 d3 hd h2 h3
      (by decide!) hb2 hb3 htest)

/-- Witness for the amended C2 at the concrete input of the counterexample. -/
theorem d2_branch_flat_appends_p1234_witness :
    (0 < 1 ∧ 1 ≤ RECUSION_LIMIT ∧
      ratOps.gt (3/1000) ratOps.FLOAT_EPSILON = true ∧
      ratOps.gt 0 ratOps.FLOAT_EPSILON = false) ∧
    adaptive_bezier_curve_impl ratOps ⟨0,0⟩ ⟨1,1/1000⟩ ⟨2,0⟩ ⟨3,0⟩ [] 1 1 =
      [] ++ [mid2 ratOps (mid2 ratOps (mid2 ratOps ⟨0,0⟩ ⟨1,1/1000⟩) (mid2 ratOps ⟨1,1/1000⟩ ⟨2,0⟩))
        (mid2 ratOps (mid2 ratOps ⟨1,1/1000⟩ ⟨2,0⟩) (mid2 ratOps ⟨2,0⟩ ⟨3,0⟩))] :=
  ⟨⟨by decide!, by decide!, by decide!, by decide!⟩,
   d2_branch_flat_appends_p1234 ⟨0,0⟩ ⟨1,1/1000⟩ ⟨2,0⟩ ⟨3,0⟩ [] 1 1
     (vsub ratOps ⟨3,0⟩ ⟨0,0⟩)
     (ratOps.abs (perp ratOps (vsub ratOps ⟨1,1/1000⟩ ⟨3,0⟩) (vsub ratOps ⟨3,0⟩ ⟨0,0⟩)))
     (ratOps.abs (perp ratOps (vsub ratOps ⟨2,0⟩ ⟨3,0⟩) (vsub ratOps ⟨3,0⟩ ⟨0,0⟩)))
     _ (by decide!) (by decide!) rfl rfl rfl rfl (by decide!) (by decide!) (by decide!)⟩

/-- C3 (counterexample): at level 1 with only `p3` significant and the
distance test passing, the step appends the single point `p1234`, not
the two points `p2` then `p3`.  Here `p1 = (0,0)`, `p2 = (1,0)`,
`p3 = (2, 1/1000)`, `p4 = (3,0)` (so `d3 = 3/1000` is above the noise
floor, `d2 = 0` is not, and `d3^2 ≤ 1 * 9` holds), and the output is the
one-element list `[(3/2, 3/8000)]`, which is neither two points long nor
contains `p2`. -/
theorem d3_branch_appends_one_point_not_two :
    adaptive_bezier_curve_impl ratOps ⟨0,0⟩ ⟨1,0⟩ ⟨2,1/1000⟩ ⟨3,0⟩ [] 1 1 =
      [⟨3/2, 3/8000⟩] ∧
    (adaptive_bezier_curve_impl ratOps ⟨0,0⟩ ⟨1,0⟩ ⟨2,1/1000⟩ ⟨3,0⟩ [] 1 1).length ≠ 2 ∧
    (⟨3/2, 3/8000⟩ : Vec2 ℚ) ≠ ⟨1, 0⟩ := by
  refine ⟨by decide!, by decide!, by decide!⟩

/-- C3 (amended): in the subdivision step at `0 < level ≤ RECUSION_LIMIT`,
when only `p3` is significant (`d3` above the noise floor, `d2` at or
below it) and the flatness test `d3^2 ≤ distance_tolerance * |p4-p1|^2`
passes, the step appends the single point `p1234` to the output and stops
without recursing further — under the compiled-in constants the source's
`p2, p3` push on this path is dead code. -/
theorem d3_branch_flat_appends_p1234
    (p1 p2 p3 p4 : Vec2 ℚ) (points : List (Vec2 ℚ)) (dt : ℚ) (level : Nat)
    (d : Vec2 ℚ) (d2 d3 : ℚ) (p1234 : Vec2 ℚ)
    (h0 : 0 < level) (h8 : level ≤ RECUSION_LIMIT)
    (hd : d = vsub ratOps p4 p1)
    (h2 : d2 = ratOps.abs (perp ratOps (vsub ratOps p2 p4) d))
    (h3 : d3 = ratOps.abs (perp ratOps (vsub ratOps p3 p4) d))
    (hp : p1234 = mid2 ratOps (mid2 ratOps (mid2 ratOps p1 p2) (mid2 ratOps p2 p3))
      (mid2 ratOps (mid2 ratOps p2 p3) (mid2 ratOps p3 p4)))
    (hb2 : ratOps.gt d2 ratOps.FLOAT_EPSILON = false)
    (hb3 : ratOps.gt d3 ratOps.FLOAT_EPSILON = true)
    (htest : ratOps.le (ratOps.mul d3 d3)
      (ratOps.mul dt (norm_squared ratOps d)) = true) :
    adaptive_bezier_curve_impl ratOps p1 p2 p3 p4 points dt level =
      points ++ [p1234] := by
  subst hp
  exact impl_of_try_stop ratOps p1 p2 p3 p4 points dt level _ h0 h8
    (try_stop_d3_flat ratOps p1 p2 p3 p4 _ points dt d d2 d3 hd h2 h3
      (by decide!) hb2 hb3 htest)

/-- Witness for the amended C3 at the concrete input of the counterexample. -/
theorem d3_branch_flat_appends_p1234_witness :
    (0 < 1 ∧ 1 ≤ RECUSION_LIMIT ∧
      ratOps.gt 0 ratOps.FLOAT_EPSILON = false ∧
      ratOps.gt (3/1000) ratOps.FLOAT_EPSILON = true) ∧
    adaptive_bezier_curve_impl ratOps ⟨0,0⟩ ⟨1,0⟩ ⟨2,1/1000⟩ ⟨3,0⟩ [] 1 1 =
      [] ++ [mid2 ratOps (mid2 ratOps (mid2 ratOps ⟨0,0⟩ ⟨1,0⟩) (mid2 ratOps ⟨1,0⟩ ⟨2,1/1000⟩))
        (mid2 ratOps (mid2 ratOps ⟨1,0⟩ ⟨2,1/1000⟩) (mid2 ratOps ⟨2,1/1000⟩ ⟨3,0⟩))] :=
  ⟨⟨by decide!, by decide!, by decide!, by decide!⟩,
   d3_branch_flat_appends_p1234 ⟨0,0⟩ ⟨1,0⟩ ⟨2,1/1000⟩ ⟨3,0⟩ [] 1 1
     (vsub ratOps ⟨3,0⟩ ⟨0,0⟩)
     (ratOps.abs (perp ratOps (vsub ratOps ⟨1,0⟩ ⟨3,0⟩) (vsub ratOps ⟨3,0⟩ ⟨0,0⟩)))
     (ratOps.abs (perp ratOps (vsub ratOps ⟨2,1/1000⟩ ⟨3,0⟩) (vsub ratOps ⟨3,0⟩ ⟨0,0⟩)))
     _ (by decide!) (by decide!) rfl rfl rfl rfl (by decide!) (by decide!) (by decide!)⟩

/-- C6: under the compiled-in configuration constants
(`M_ANGLE_TOLERANCE = 0 < CURVE_ANGLE_TOERANCE_EPSILON = 1/100` and
`M_CUSP_LIMIT = 0`), the angle and cusp refinement branches are
unreachable: whenever the distance-based flatness test of any of the four
classification branches passes at `0 < level ≤ RECUSION_LIMIT`, the step
appends `p1234` and returns, so the distance test alone decides
termination. -/
theorem distance_test_decides_termination
    (p1 p2 p3 p4 : Vec2 ℚ) (points : List (Vec2 ℚ)) (dt : ℚ) (level : Nat)
    (d : Vec2 ℚ) (d2 d3 : ℚ) (p1234 : Vec2 ℚ)
    (h0 : 0 < level) (h8 : level ≤ RECUSION_LIMIT)
    (hd : d = vsub ratOps p4 p1)
    (h2 : d2 = ratOps.abs (perp ratOps (vsub ratOps p2 p4) d))
    (h3 : d3 = ratOps.abs (perp ratOps (vsub ratOps p3 p4) d))
    (hp : p1234 = mid2 ratOps (mid2 ratOps (mid2 ratOps p1 p2) (mid2 ratOps p2 p3))
      (mid2 ratOps (mid2 ratOps p2 p3) (mid2 ratOps p3 p4)))
    (hpass :
      (ratOps.gt d2 ratOps.FLOAT_EPSILON = true ∧
        ratOps.gt d3 ratOps.FLOAT_EPSILON = true ∧
        ratOps.le (ratOps.powi2 (ratOps.add d2 d3))
          (ratOps.mul dt (norm_squared ratOps d)) = true) ∨
      (ratOps.gt d2 ratOps.FLOAT_EPSILON = true ∧
        ratOps.gt d3 ratOps.FLOAT_EPSILON = false ∧
        ratOps.le (ratOps.mul d2 d2) (ratOps.mul dt (norm_squared ratOps d)) = true) ∨
      (ratOps.gt d2 ratOps.FLOAT_EPSILON = false ∧
        ratOps.gt d3 ratOps.FLOAT_EPSILON = true ∧
        ratOps.le (ratOps.mul d3 d3) (ratOps.mul dt (norm_squared ratOps d)) = true) ∨
      (ratOps.gt d2 ratOps.FLOAT_EPSILON = false ∧
        ratOps.gt d3 ratOps.FLOAT_EPSILON = false ∧
        ratOps.lt (norm_squared ratOps (vsub ratOps p1234 (mid2 ratOps p1 p4))) dt
          = true)) :
    adaptive_bezier_curve_impl ratOps p1 p2 p3 p4 points dt level =
      points ++ [p1234] := by
  subst hp
  refine impl_of_try_stop ratOps p1 p2 p3 p4 points dt level _ h0 h8 ?_
  rcases hpass with ⟨a, b, c⟩ | ⟨a, b, c⟩ | ⟨a, b, c⟩ | ⟨a, b, c⟩
  · exact try_stop_general_flat ratOps p1 p2 p3 p4 _ points dt d d2 d3 hd h2 h3
      (by decide!) a b c
  · exact try_stop_d2_flat ratOps p1 p2 p3 p4 _ points dt d d2 d3 hd h2 h3
      (by decide!) a b c
  · exact try_stop_d3_flat ratOps p1 p2 p3 p4 _ points dt d d2 d3 hd h2 h3
      (by decide!) a b c
  · exact try_stop_collinear_flat ratOps p1 p2 p3 p4 _ points dt d d2 d3 hd h2 h3
      a b c

/-- Witness for C6 in the general branch: `p1 = (0,0)`, `p2 = (1,1)`,
`p3 = (2,1)`, `p4 = (3,0)`, tolerance 10, level 1. -/
theorem distance_test_decides_termination_witness :
    (0 < 1 ∧ 1 ≤ RECUSION_LIMIT ∧
      ratOps.gt 3 ratOps.FLOAT_EPSILON = true ∧
      ratOps.le (ratOps.powi2 (ratOps.add 3 3)) (ratOps.mul 10 9) = true) ∧
    adaptive_bezier_curve_impl ratOps ⟨0,0⟩ ⟨1,1⟩ ⟨2,1⟩ ⟨3,0⟩ [] 10 1 =
      [] ++ [mid2 ratOps (mid2 ratOps (mid2 ratOps ⟨0,0⟩ ⟨1,1⟩) (mid2 ratOps ⟨1,1⟩ ⟨2,1⟩))
        (mid2 ratOps (mid2 ratOps ⟨1,1⟩ ⟨2,1⟩) (mid2 ratOps ⟨2,1⟩ ⟨3,0⟩))] :=
  ⟨⟨by decide!, by decide!, by decide!, by decide!⟩,
   distance_test_decides_termination ⟨0,0⟩ ⟨1,1⟩ ⟨2,1⟩ ⟨3,0⟩ [] 10 1
     (vsub ratOps ⟨3,0⟩ ⟨0,0⟩)
     (ratOps.abs (perp ratOps (vsub ratOps ⟨1,1⟩ ⟨3,0⟩) (vsub ratOps ⟨3,0⟩ ⟨0,0⟩)))
     (ratOps.abs (perp ratOps (vsub ratOps ⟨2,1⟩ ⟨3,0⟩) (vsub ratOps ⟨3,0⟩ ⟨0,0⟩)))
     _ (by decide!) (by decide!) rfl rfl rfl rfl (Or.inl (by decide!))⟩

/-- C9 (counterexample): the point count is not monotone in the scale.
For the nearly flat curve `(0,0), (1,1/1000), (2,0), (3,0)` the output at
scale 1 has 4 points, but at the larger scale `10^12` the tolerance is so
small that every flatness test fails, the recursion runs to the depth
limit appending nothing, and the output has only the 2 endpoints. -/
theorem point_count_not_monotone_in_scale :
    (0:ℚ) < 1 ∧ (1:ℚ) < 10 ^ 12 ∧
    (adaptive_bezier_curve ratOps ⟨0,0⟩ ⟨1,1/1000⟩ ⟨2,0⟩ ⟨3,0⟩ (10 ^ 12)).length <
      (adaptive_bezier_curve ratOps ⟨0,0⟩ ⟨1,1/1000⟩ ⟨2,0⟩ ⟨3,0⟩ 1).length := by
  refine ⟨by decide!, by decide!, by decide!⟩

/-- C9 (amended): for a fixed curve the distance tolerance — not the point
count — is strictly antitone in the scale: for positive scales
`s1 < s2`, `distance_tolerance(s2) < distance_tolerance(s1)`. -/
theorem distance_tolerance_strict_anti (s1 s2 : ℚ)
    (h1 : 0 < s1) (h12 : s1 < s2) :
    distance_tolerance ratOps s2 < distance_tolerance ratOps s1 := by
  have h2 : 0 < s2 := h1.trans h12
  show (1 / s2) * (1 / s2) < (1 / s1) * (1 / s1)
  have ha : (0:ℚ) < 1 / s2 := by positivity
  have hb : 1 / s2 < 1 / s1 := one_div_lt_one_div_of_lt h1 h12
  exact mul_lt_mul'' hb hb ha.le ha.le

/-- Witness for the amended C9 at scales 1 and 2. -/
theorem distance_tolerance_strict_anti_witness :
    ((0:ℚ) < 1 ∧ (1:ℚ) < 2) ∧
    distance_tolerance ratOps 2 < distance_tolerance ratOps 1 :=
  ⟨⟨by decide!, by decide!⟩, distance_tolerance_strict_anti 1 2 (by decide!) (by decide!)⟩

end AdaptiveBezier
